import Mathlib

/-!
Shallow embedding of `xpra/x11/gtk_x11/window_damage.py` (class
`WindowDamageHandler`).

The external X11 / XImage world is modelled by an environment of pure
functions (`X11Env`) telling each external call what it returns, plus a
`World` record carrying the process-wide class attribute
`WindowDamageHandler.XShmEnabled` and a counter used to mint distinct
wrapper handles.  Every method of the class becomes a function from
`World × WindowDamageHandler` to a `Step` result which also records the
trace of external calls (and the log events relevant to the claims), so
that properties about which external queries were issued are statable.

Python exceptions from the X layer are modelled with `Except XErr`; the
`with xlog:` blocks of the source swallow errors, the `try/except XError`
blocks of `get_image` are translated explicitly.
-/

set_option linter.unusedVariables false

namespace XpraDamage

/-- An X11 error (`XError` of `xpra.gtk_common.error`); `msg` is the string
the except clauses of `get_image` inspect with `startswith`. -/
structure XErr where
  msg : String
  deriving Repr, DecidableEq

/-- An image returned by a capture call; only its dimensions matter here. -/
structure Image where
  width : Nat
  height : Nat
  deriving Repr, DecidableEq

/-- An XShm wrapper as returned by `XImage.get_XShmWrapper`: it records a
size (`get_size()`), and `ident` distinguishes distinct wrappers. -/
structure XShmHandle where
  ident : Nat
  width : Nat
  height : Nat
  deriving Repr, DecidableEq

/-- A named-pixmap wrapper as returned by `XImage.get_xwindow_pixmap_wrapper`:
`get_width()/get_height()` report the backing store's actual extent, and
`ident` distinguishes distinct wrappers (also used as `get_pixmap()`). -/
structure PixmapHandle where
  ident : Nat
  width : Nat
  height : Nat
  deriving Repr, DecidableEq

/-- Trace items: the external X calls a method performs, plus the log
events the specification talks about. -/
inductive XCall where
  | geometryQuery
  | damageCreate
  | damageSubtract (handle : Nat)
  | damageDestroy (handle : Nat)
  | addReceiver
  | removeReceiver
  | shmAlloc
  | shmSetupProbe
  | shmDiscard (ident : Nat)
  | shmCleanup (ident : Nat)
  | shmGetImage (pixmap : Nat) (x y : Int) (w h : Nat)
  | setPixmap
  | pixCleanup (ident : Nat)
  | pixGetImage (x y : Int) (w h : Nat)
  | warnShmDisabled
  | logDebug
  | logWarn
  deriving Repr, DecidableEq

/-- Behaviour of the external X11/XImage bindings, one field per external
call the class performs. -/
structure X11Env where
  /-- Result of `XImage.has_XShm()`. -/
  hasXShm : Bool
  /-- Result of `X11Window.geometry_with_border(xid)`: `(x, y, w, h, border)` or null. -/
  geometryWithBorder : Option (Int × Int × Nat × Nat × Nat)
  /-- Result of `client_window.get_geometry()[2:4]`: the window's current `(w, h)`. -/
  windowGeometry : Nat × Nat
  /-- Result of `X11Window.XDamageCreate(xid)`. -/
  xdamageCreate : Nat
  /-- Result of `XImage.get_XShmWrapper(xid)`: the size the new wrapper reports, or
  null on allocation failure. -/
  getXShmWrapper : Option (Nat × Nat)
  /-- Result of `wrapper.setup()`: `(init_ok, retry_window, xshm_failed)`. -/
  shmSetup : Bool × Bool × Bool
  /-- Result of `shm.get_image(pixmap, x, y, w, h)`: an image, None, or an XError. -/
  shmGetImage : Nat → Int → Int → Nat → Nat → Except XErr (Option Image)
  /-- Result of `XImage.get_xwindow_pixmap_wrapper(xid)`: the size of the pixmap
  wrapper, or null (covers both a None return and an error under xlog). -/
  pixmapWrapper : Option (Nat × Nat)
  /-- Result of `handle.get_image(x, y, w, h)` on the pixmap wrapper: image or XError. -/
  pixGetImage : Int → Int → Nat → Nat → Except XErr Image

/-- Process-wide state: the external environment, the class attribute
`WindowDamageHandler.XShmEnabled`, and a counter minting fresh wrapper
identities. -/
structure World where
  env : X11Env
  XShmEnabled : Bool
  fresh : Nat

/-- Value of `USE_XSHM = envbool("XPRA_XSHM", True)` under the default environment
(no `XPRA_XSHM` override set). -/
def USE_XSHM : Bool := true

/-- Value of `WindowDamageHandler.MAX_RECEIVERS`. -/
def MAX_RECEIVERS : Nat := 3

/-- The per-session instance state of `WindowDamageHandler`.  The client
window object is modelled by its xid; `none` after `destroy()` cleared the
reference. -/
structure WindowDamageHandler where
  client_window : Option Nat
  xid : Nat
  _use_xshm : Bool
  _damage_handle : Option Nat
  _xshm_handle : Option XShmHandle
  _contents_handle : Option PixmapHandle
  _border_width : Nat
  deriving Repr, DecidableEq

/-- Result of a method: return value, new process state, new instance
state, and the trace of external calls performed, in order. -/
structure Step (α : Type) where
  ret : α
  world : World
  handler : WindowDamageHandler
  calls : List XCall

/-- Python truthiness of an optional integer handle (`if dh:`): falsy when
None or zero. -/
def truthyNat : Option Nat → Bool
  | none => false
  | some n => n != 0

/-- Translation of `WindowDamageHandler.__init__(client_window, use_xshm)`. -/
def init (client_window : Nat) (use_xshm : Bool) : WindowDamageHandler :=
  { client_window := some client_window
    xid := client_window
    _use_xshm := use_xshm
    _damage_handle := none
    _xshm_handle := none
    _contents_handle := none
    _border_width := 0 }

/-- The process state at interpreter start: `XShmEnabled = USE_XSHM`. -/
def initialWorld (env : X11Env) : World :=
  { env := env, XShmEnabled := USE_XSHM, fresh := 0 }

/-- Translation of `invalidate_pixmap()`: release and clear the cached contents handle;
no-op when empty.  The `ch.cleanup()` runs under `with xlog:`. -/
def invalidate_pixmap (w : World) (s : WindowDamageHandler) : Step Unit :=
  match s._contents_handle with
  | none => { ret := (), world := w, handler := s, calls := [] }
  | some ch =>
      { ret := (), world := w
        handler := { s with _contents_handle := none }
        calls := [XCall.pixCleanup ch.ident] }

/-- Translation of `has_xshm()`: `self._use_xshm and WindowDamageHandler.XShmEnabled and
XImage.has_XShm()`. -/
def has_xshm (w : World) (s : WindowDamageHandler) : Bool :=
  s._use_xshm && w.XShmEnabled && w.env.hasXShm

/-- Translation of `get_xshm_handle()`. -/
def get_xshm_handle (w : World) (s : WindowDamageHandler) :
    Step (Option XShmHandle) :=
  if !(has_xshm w s) then
    { ret := none, world := w, handler := s, calls := [] }
  else
    -- `if self._xshm_handle:` — compare the recorded size with geometry
    let staled : WindowDamageHandler × List XCall :=
      match s._xshm_handle with
      | some sh =>
          if sh.width != w.env.windowGeometry.1 || sh.height != w.env.windowGeometry.2 then
            ({ s with _xshm_handle := none },
             [XCall.geometryQuery, XCall.shmCleanup sh.ident])
          else (s, [XCall.geometryQuery])
      | none => (s, [])
    let s1 := staled.1
    let t1 := staled.2
    match s1._xshm_handle with
    | some sh =>
        { ret := some sh, world := w, handler := s1, calls := t1 }
    | none =>
        -- `if self._xshm_handle is None:` — make a new one
        match w.env.getXShmWrapper with
        | none =>
            { ret := none, world := w, handler := s1
              calls := t1 ++ [XCall.shmAlloc] }
        | some sz =>
            let nh : XShmHandle := { ident := w.fresh, width := sz.1, height := sz.2 }
            let w1 : World := { w with fresh := w.fresh + 1 }
            let init_ok := w1.env.shmSetup.1
            let retry_window := w1.env.shmSetup.2.1
            let xshm_failed := w1.env.shmSetup.2.2
            let s2 := { s1 with _xshm_handle := if init_ok then some nh else none }
            let s3 := if retry_window then s2 else { s2 with _use_xshm := false }
            let w2 := if xshm_failed then { w1 with XShmEnabled := false } else w1
            { ret := s3._xshm_handle, world := w2, handler := s3
              calls := t1 ++ [XCall.shmAlloc, XCall.shmSetupProbe] ++
                       (if xshm_failed then [XCall.warnShmDisabled] else []) }

/-- Translation of `get_contents_handle()`: shortcut to null once the window reference is
cleared; otherwise fetch via `_set_pixmap()` (under `with xlog:`) when the
cache is empty.  A freshly fetched wrapper is minted with the current
counter. -/
def get_contents_handle (w : World) (s : WindowDamageHandler) :
    Step (Option PixmapHandle) :=
  if s.client_window.isNone then
    { ret := none, world := w, handler := s, calls := [] }
  else
    match s._contents_handle with
    | some ch => { ret := some ch, world := w, handler := s, calls := [] }
    | none =>
        match w.env.pixmapWrapper with
        | none =>
            { ret := none, world := w, handler := s, calls := [XCall.setPixmap] }
        | some sz =>
            let nh : PixmapHandle := { ident := w.fresh, width := sz.1, height := sz.2 }
            { ret := some nh
              world := { w with fresh := w.fresh + 1 }
              handler := { s with _contents_handle := some nh }
              calls := [XCall.setPixmap] }

/-- The error-message class prefix checked by the except clauses. -/
def badMatchStr : String := "BadMatch"

/-- The second recoverable error-message prefix of the fast-path clause. -/
def badWindowStr : String := "BadWindow"

/-- Python's `str.startswith`, computed structurally on the character
lists so concrete instances evaluate. -/
def startswith (s pre : String) : Bool := pre.data.isPrefixOf s.data

/-- The slow path of `get_image`: clamp to the pixmap wrapper's own
dimensions, read, and absorb any `XError` (BadMatch at debug, the rest as
a warning), returning None on failure. -/
def get_image_slow (env : X11Env) (handle : PixmapHandle) (x y : Int)
    (width height : Nat) : Option Image × List XCall :=
  let w := min handle.width width
  let h := min handle.height height
  match env.pixGetImage x y w h with
  | Except.ok img => (some img, [XCall.pixGetImage x y w h])
  | Except.error e =>
      (none,
       [XCall.pixGetImage x y w h] ++
       (if startswith e.msg badMatchStr then [XCall.logDebug] else [XCall.logWarn]))

/-- The fast-path attempt of `get_image` (the body of the first `try`
block): fetch the XShm handle and, when present, request the rectangle;
an `XError` escapes this function as `Except.error`. -/
def get_image_fast (w : World) (s : WindowDamageHandler) (handle : PixmapHandle)
    (x y : Int) (width height : Nat) : Step (Except XErr (Option Image)) :=
  let g := get_xshm_handle w s
  match g.ret with
  | none =>
      { ret := Except.ok none, world := g.world, handler := g.handler
        calls := g.calls }
  | some _sh =>
      match g.world.env.shmGetImage handle.ident x y width height with
      | Except.ok r =>
          { ret := Except.ok r, world := g.world, handler := g.handler
            calls := g.calls ++ [XCall.shmGetImage handle.ident x y width height] }
      | Except.error e =>
          { ret := Except.error e, world := g.world, handler := g.handler
            calls := g.calls ++ [XCall.shmGetImage handle.ident x y width height] }

/-- Does an error message name the recoverable vanished-window class the
fast-path except clause checks for? -/
def recoverableFast (e : XErr) : Bool :=
  startswith e.msg badMatchStr || startswith e.msg badWindowStr

/-- Translation of `get_image(x, y, width, height)`.  The return type keeps the `Except`
layer so that "no XError propagates to the caller" is a statable fact:
every branch of the translation ends in `Except.ok` exactly because each
`except XError` clause of the source absorbs the error. -/
def get_image (w : World) (s : WindowDamageHandler) (x y : Int)
    (width height : Nat) : Step (Except XErr (Option Image)) :=
  let c := get_contents_handle w s
  match c.ret with
  | none =>
      { ret := Except.ok none, world := c.world, handler := c.handler
        calls := c.calls }
  | some handle =>
      let f := get_image_fast c.world c.handler handle x y width height
      match f.ret with
      | Except.ok (some img) =>
          { ret := Except.ok (some img), world := f.world, handler := f.handler
            calls := c.calls ++ f.calls }
      | Except.ok none =>
          let sl := get_image_slow f.world.env handle x y width height
          { ret := Except.ok sl.1, world := f.world, handler := f.handler
            calls := c.calls ++ f.calls ++ sl.2 }
      | Except.error e =>
          let lg := if recoverableFast e then [XCall.logDebug] else [XCall.logWarn]
          let sl := get_image_slow f.world.env handle x y width height
          { ret := Except.ok sl.1, world := f.world, handler := f.handler
            calls := c.calls ++ f.calls ++ lg ++ sl.2 }

/-- Error `Unmanageable` raised by `setup()` when the window is already gone. -/
structure Unmanageable where
  msg : String
  deriving Repr, DecidableEq

/-- Translation of `create_damage_handle()`. -/
def create_damage_handle (w : World) (s : WindowDamageHandler) :
    WindowDamageHandler × List XCall :=
  ({ s with _damage_handle := some w.env.xdamageCreate }, [XCall.damageCreate])

/-- Translation of `setup()`: invalidate, read geometry with border (raise `Unmanageable`
when null), record the border width, create the damage handle, subscribe. -/
def setup (w : World) (s : WindowDamageHandler) :
    Step (Except Unmanageable Unit) :=
  let iv := invalidate_pixmap w s
  match iv.world.env.geometryWithBorder with
  | none =>
      { ret := Except.error { msg := "window disappeared already" }
        world := iv.world, handler := iv.handler
        calls := iv.calls ++ [XCall.geometryQuery] }
  | some geom =>
      let s1 := { iv.handler with _border_width := geom.2.2.2.2 }
      let cd := create_damage_handle iv.world s1
      { ret := Except.ok ()
        world := iv.world, handler := cd.1
        calls := iv.calls ++ [XCall.geometryQuery] ++ cd.2 ++ [XCall.addReceiver] }

/-- Translation of `destroy_damage_handle()`: invalidate, destroy a truthy damage handle,
clean up a cached xshm handle, invalidate again. -/
def destroy_damage_handle (w : World) (s : WindowDamageHandler) : Step Unit :=
  let iv := invalidate_pixmap w s
  let s1 := iv.handler
  let dstep : WindowDamageHandler × List XCall :=
    if truthyNat s1._damage_handle then
      ({ s1 with _damage_handle := none },
       [XCall.damageDestroy (s1._damage_handle.getD 0)])
    else (s1, [])
  let s2 := dstep.1
  let sstep : WindowDamageHandler × List XCall :=
    match s2._xshm_handle with
    | some sh => ({ s2 with _xshm_handle := none }, [XCall.shmCleanup sh.ident])
    | none => (s2, [])
  let iv2 := invalidate_pixmap iv.world sstep.1
  { ret := (), world := iv2.world, handler := iv2.handler
    calls := iv.calls ++ dstep.2 ++ sstep.2 ++ iv2.calls }

/-- Translation of `do_destroy(win)`. -/
def do_destroy (w : World) (s : WindowDamageHandler) : Step Unit :=
  let d := destroy_damage_handle w s
  { d with calls := XCall.removeReceiver :: d.calls }

/-- Translation of `destroy()`: when the window reference is already cleared, only warn;
otherwise clear the reference early and tear down. -/
def destroy (w : World) (s : WindowDamageHandler) : Step Unit :=
  match s.client_window with
  | none => { ret := (), world := w, handler := s, calls := [XCall.logWarn] }
  | some _ => do_destroy w { s with client_window := none }

/-- Translation of `acknowledge_changes()`: discard pending xshm state; then, only when
the damage handle is truthy and the window reference live, subtract the
damage region (under `with xlog:`) and invalidate the pixmap. -/
def acknowledge_changes (w : World) (s : WindowDamageHandler) : Step Unit :=
  let t1 : List XCall :=
    match s._xshm_handle with
    | some sh => [XCall.shmDiscard sh.ident]
    | none => []
  if truthyNat s._damage_handle && s.client_window.isSome then
    let iv := invalidate_pixmap w s
    { ret := (), world := iv.world, handler := iv.handler
      calls := t1 ++ [XCall.damageSubtract (s._damage_handle.getD 0)] ++ iv.calls }
  else
    { ret := (), world := w, handler := s, calls := t1 }

/-- Translation of `do_xpra_reparent_event(event)`. -/
def do_xpra_reparent_event (w : World) (s : WindowDamageHandler) : Step Unit :=
  invalidate_pixmap w s

/-- Translation of `xpra_unmap_event(event)`. -/
def xpra_unmap_event (w : World) (s : WindowDamageHandler) : Step Unit :=
  invalidate_pixmap w s

/-- Translation of `do_xpra_configure_event(event)`: record the event's border width and
invalidate the pixmap. -/
def do_xpra_configure_event (w : World) (s : WindowDamageHandler)
    (event_border_width : Nat) : Step Unit :=
  invalidate_pixmap w { s with _border_width := event_border_width }

/-- The operations of the public interface, for process-wide temporal
statements quantifying over arbitrary call sequences. -/
inductive Op where
  | setupOp
  | destroyOp
  | acknowledgeOp
  | invalidateOp
  | getXshmOp
  | getContentsOp
  | getImageOp (x y : Int) (width height : Nat)
  | reparentOp
  | unmapOp
  | configureOp (bw : Nat)
  deriving Repr, DecidableEq

/-- Run one operation; the environment argument lets the external world
behave differently at every call. -/
def runOp (e : X11Env) (op : Op) (w : World) (s : WindowDamageHandler) :
    World × WindowDamageHandler :=
  let w0 : World := { w with env := e }
  match op with
  | Op.setupOp => let r := setup w0 s; (r.world, r.handler)
  | Op.destroyOp => let r := destroy w0 s; (r.world, r.handler)
  | Op.acknowledgeOp => let r := acknowledge_changes w0 s; (r.world, r.handler)
  | Op.invalidateOp => let r := invalidate_pixmap w0 s; (r.world, r.handler)
  | Op.getXshmOp => let r := get_xshm_handle w0 s; (r.world, r.handler)
  | Op.getContentsOp => let r := get_contents_handle w0 s; (r.world, r.handler)
  | Op.getImageOp x y width height =>
      let r := get_image w0 s x y width height; (r.world, r.handler)
  | Op.reparentOp => let r := do_xpra_reparent_event w0 s; (r.world, r.handler)
  | Op.unmapOp => let r := xpra_unmap_event w0 s; (r.world, r.handler)
  | Op.configureOp bw =>
      let r := do_xpra_configure_event w0 s bw; (r.world, r.handler)

/-- Run a whole sequence of operations on one session. -/
def runOps (steps : List (X11Env × Op)) (w : World) (s : WindowDamageHandler) :
    World × WindowDamageHandler :=
  steps.foldl (fun acc st => runOp st.1 st.2 acc.1 acc.2) (w, s)

/-- A concrete, well-behaved environment used by witnesses: an 800×600
window, XShm present, negotiation succeeding, pixmap reads returning an
image of exactly the requested size. -/
def env0 : X11Env :=
  { hasXShm := true
    geometryWithBorder := some (0, 0, 800, 600, 2)
    windowGeometry := (800, 600)
    xdamageCreate := 7
    getXShmWrapper := some (800, 600)
    shmSetup := (true, true, false)
    shmGetImage := fun _ _ _ _ _ => Except.ok none
    pixmapWrapper := some (800, 600)
    pixGetImage := fun _ _ w h => Except.ok { width := w, height := h } }

/-- The process state at start under `env0`. -/
def w0 : World := initialWorld env0

/-! ### Helper lemmas -/

lemma invalidate_pixmap_world (w : World) (s : WindowDamageHandler) :
    (invalidate_pixmap w s).world = w := by
  rcases hch : s._contents_handle with _ | ch <;> simp [invalidate_pixmap, hch]

lemma invalidate_pixmap_handler (w : World) (s : WindowDamageHandler) :
    (invalidate_pixmap w s).handler = { s with _contents_handle := none } := by
  obtain ⟨cw, xid, ux, dh, sh, ch, bw⟩ := s
  rcases ch with _ | ch <;> simp [invalidate_pixmap]

lemma destroy_damage_handle_world (w : World) (s : WindowDamageHandler) :
    (destroy_damage_handle w s).world = w := by
  simp [destroy_damage_handle, invalidate_pixmap_world]

lemma destroy_damage_handle_client (w : World) (s : WindowDamageHandler) :
    (destroy_damage_handle w s).handler.client_window = s.client_window := by
  unfold destroy_damage_handle
  simp only [invalidate_pixmap_handler]
  split <;> (split <;> simp_all)

lemma destroy_world (w : World) (s : WindowDamageHandler) :
    (destroy w s).world = w := by
  rcases hcw : s.client_window with _ | v <;>
    simp [destroy, hcw, do_destroy, destroy_damage_handle_world]

lemma destroy_client (w : World) (s : WindowDamageHandler) :
    (destroy w s).handler.client_window = none := by
  rcases hcw : s.client_window with _ | v <;>
    simp [destroy, hcw, do_destroy, destroy_damage_handle_client]

lemma get_contents_world (w : World) (s : WindowDamageHandler) :
    (get_contents_handle w s).world = w ∨
    (get_contents_handle w s).world = { w with fresh := w.fresh + 1 } := by
  unfold get_contents_handle
  split
  · exact Or.inl rfl
  · split
    · exact Or.inl rfl
    · split
      · exact Or.inl rfl
      · exact Or.inr rfl

lemma get_xshm_world (w : World) (s : WindowDamageHandler) :
    (get_xshm_handle w s).world = w ∨
    ((get_xshm_handle w s).world = { w with fresh := w.fresh + 1 } ∧
      w.env.shmSetup.2.2 = false) ∨
    ((get_xshm_handle w s).world =
        { w with fresh := w.fresh + 1, XShmEnabled := false } ∧
      w.env.shmSetup.2.2 = true) := by
  unfold get_xshm_handle
  split
  · exact Or.inl rfl
  · dsimp only
    split
    · exact Or.inl rfl
    · split
      · exact Or.inl rfl
      · cases hfl : w.env.shmSetup.2.2 <;> simp [hfl]

lemma setup_world (w : World) (s : WindowDamageHandler) :
    (setup w s).world = w := by
  unfold setup
  dsimp only
  split <;> simp [invalidate_pixmap_world]

lemma acknowledge_world (w : World) (s : WindowDamageHandler) :
    (acknowledge_changes w s).world = w := by
  unfold acknowledge_changes
  dsimp only
  split <;> (try split) <;> simp [invalidate_pixmap_world]

lemma get_image_fast_world (w : World) (s : WindowDamageHandler)
    (handle : PixmapHandle) (x y : Int) (width height : Nat) :
    (get_image_fast w s handle x y width height).world =
      (get_xshm_handle w s).world := by
  unfold get_image_fast
  dsimp only
  split
  · rfl
  · split <;> rfl

lemma get_image_world (w : World) (s : WindowDamageHandler) (x y : Int)
    (width height : Nat) :
    (get_image w s x y width height).world = (get_contents_handle w s).world ∨
    (get_image w s x y width height).world =
      (get_xshm_handle (get_contents_handle w s).world
        (get_contents_handle w s).handler).world := by
  unfold get_image
  dsimp only
  split
  · exact Or.inl rfl
  · split <;> exact Or.inr (get_image_fast_world _ _ _ _ _ _ _)

lemma get_contents_latch (w : World) (s : WindowDamageHandler) :
    (get_contents_handle w s).world.XShmEnabled = w.XShmEnabled := by
  rcases get_contents_world w s with h | h <;> rw [h]

lemma get_contents_env (w : World) (s : WindowDamageHandler) :
    (get_contents_handle w s).world.env = w.env := by
  rcases get_contents_world w s with h | h <;> rw [h]

lemma get_xshm_latch (w : World) (s : WindowDamageHandler) :
    (get_xshm_handle w s).world.XShmEnabled = w.XShmEnabled ∨
    ((get_xshm_handle w s).world.XShmEnabled = false ∧
      w.env.shmSetup.2.2 = true) := by
  rcases get_xshm_world w s with h | ⟨h, _⟩ | ⟨h, hf⟩
  · left; rw [h]
  · left; rw [h]
  · right; exact ⟨by rw [h], hf⟩

lemma runOp_latch (e : X11Env) (op : Op) (w : World) (s : WindowDamageHandler) :
    (runOp e op w s).1.XShmEnabled = w.XShmEnabled ∨
    ((runOp e op w s).1.XShmEnabled = false ∧ e.shmSetup.2.2 = true) := by
  cases op <;> dsimp only [runOp]
  case setupOp => left; rw [setup_world]
  case destroyOp => left; rw [destroy_world]
  case acknowledgeOp => left; rw [acknowledge_world]
  case invalidateOp => left; rw [invalidate_pixmap_world]
  case getXshmOp => exact get_xshm_latch _ s
  case getContentsOp => left; exact get_contents_latch _ s
  case getImageOp x y width height =>
    rcases get_image_world { w with env := e } s x y width height with h | h
    · left; rw [h]; exact get_contents_latch _ s
    · rw [h]
      rcases get_xshm_latch (get_contents_handle { w with env := e } s).world
          (get_contents_handle { w with env := e } s).handler with h1 | ⟨h1, h2⟩
      · left; rw [h1]; exact get_contents_latch _ s
      · right
        refine ⟨h1, ?_⟩
        rw [get_contents_env] at h2
        exact h2
  case reparentOp =>
    left; rw [do_xpra_reparent_event, invalidate_pixmap_world]
  case unmapOp =>
    left; rw [xpra_unmap_event, invalidate_pixmap_world]
  case configureOp bw =>
    left; rw [do_xpra_configure_event, invalidate_pixmap_world]

lemma runOp_false (e : X11Env) (op : Op) (w : World) (s : WindowDamageHandler)
    (h : w.XShmEnabled = false) : (runOp e op w s).1.XShmEnabled = false := by
  rcases runOp_latch e op w s with h1 | ⟨h1, _⟩
  · rw [h1, h]
  · exact h1

lemma runOps_false : ∀ (steps : List (X11Env × Op)) (w : World)
    (s : WindowDamageHandler), w.XShmEnabled = false →
    (runOps steps w s).1.XShmEnabled = false := by
  intro steps
  induction steps with
  | nil => intro w s h; simpa [runOps] using h
  | cons st rest ih =>
    intro w s h
    have hstep : runOps (st :: rest) w s =
        runOps rest (runOp st.1 st.2 w s).1 (runOp st.1 st.2 w s).2 := rfl
    rw [hstep]
    exact ih _ _ (runOp_false st.1 st.2 w s h)

/-! ### Claim theorems: C8, C9, C10 -/

/-- C8: `destroy()` is idempotent: for every session, `destroy()` always
leaves the window reference cleared, and a call on an already-destroyed
session (window reference `none`) performs no teardown work at all — it
only logs a warning and returns the state unchanged. -/
theorem c8_destroy_idempotent :
    (∀ w s, ((destroy w s).handler).client_window = none) ∧
    (∀ w (s : WindowDamageHandler), s.client_window = none →
      destroy w s = { ret := (), world := w, handler := s, calls := [XCall.logWarn] }) := by
  constructor
  · intro w s; exact destroy_client w s
  · intro w s hcw; simp [destroy, hcw]

/-- C8 witness: applying the idempotence theorem to a concrete
already-destroyed session. -/
theorem c8_destroy_idempotent_witness :
    destroy w0 { init 1 true with client_window := none } =
      { ret := (), world := w0, handler := { init 1 true with client_window := none },
        calls := [XCall.logWarn] } :=
  c8_destroy_idempotent.2 w0 { init 1 true with client_window := none } rfl

/-- C9: the reparent and unmap reactions invalidate the cached pixmap
snapshot and change nothing else; the configure reaction records the
event's border width and invalidates the snapshot and changes nothing
else.  The record updates pin every other field (window reference, xid,
`_use_xshm`, damage handle, xshm handle) and the process state. -/
theorem c9_event_reactions :
    ∀ (w : World) (s : WindowDamageHandler) (ebw : Nat),
      ((do_xpra_reparent_event w s).world = w ∧
       (do_xpra_reparent_event w s).handler = { s with _contents_handle := none }) ∧
      ((xpra_unmap_event w s).world = w ∧
       (xpra_unmap_event w s).handler = { s with _contents_handle := none }) ∧
      ((do_xpra_configure_event w s ebw).world = w ∧
       (do_xpra_configure_event w s ebw).handler =
         { s with _border_width := ebw, _contents_handle := none }) := by
  intro w s ebw
  refine ⟨⟨?_, ?_⟩, ⟨?_, ?_⟩, ⟨?_, ?_⟩⟩ <;>
    simp [do_xpra_reparent_event, xpra_unmap_event, do_xpra_configure_event,
          invalidate_pixmap_world, invalidate_pixmap_handler]

/-- C10: after `destroy()` has run, every subsequent `get_image` call
returns "no image" without raising and without issuing any external call,
because `get_contents_handle` short-circuits on the cleared window
reference. -/
theorem c10_get_image_after_destroy :
    ∀ (w : World) (s : WindowDamageHandler) (x y : Int) (width height : Nat),
      get_image (destroy w s).world (destroy w s).handler x y width height =
        { ret := Except.ok none, world := (destroy w s).world,
          handler := (destroy w s).handler, calls := [] } := by
  intro w s x y width height
  have hcw := destroy_client w s
  simp [get_image, get_contents_handle, hcw]

/-- A process state whose `XShmEnabled` latch has been dropped. -/
def wFalse : World := { env := env0, XShmEnabled := false, fresh := 0 }

/-- C2: the process-wide latch `WindowDamageHandler.XShmEnabled` is
one-way: it starts true (default `USE_XSHM`); no operation of the
interface ever turns it from false back to true; the only change any
operation performs is setting it to false, and only when the negotiation
reported `xshm_failed`; once false it stays false across any sequence of
operations; and while it is false `has_xshm()` is false for every session,
even one constructed with `use_xshm = true`. -/
theorem c2_xshm_latch_one_way :
    USE_XSHM = true ∧
    (∀ env, (initialWorld env).XShmEnabled = true) ∧
    (∀ (e : X11Env) (op : Op) (w : World) (s : WindowDamageHandler),
       (runOp e op w s).1.XShmEnabled = true → w.XShmEnabled = true) ∧
    (∀ (e : X11Env) (op : Op) (w : World) (s : WindowDamageHandler),
       (runOp e op w s).1.XShmEnabled ≠ w.XShmEnabled →
       (runOp e op w s).1.XShmEnabled = false ∧ e.shmSetup.2.2 = true) ∧
    (∀ (steps : List (X11Env × Op)) (w : World) (s : WindowDamageHandler),
       w.XShmEnabled = false → (runOps steps w s).1.XShmEnabled = false) ∧
    (∀ (w : World) (s : WindowDamageHandler),
       w.XShmEnabled = false → has_xshm w s = false) ∧
    (∀ (w : World) (cw : Nat),
       w.XShmEnabled = false → has_xshm w (init cw true) = false) := by
  refine ⟨rfl, fun env => rfl, ?_, ?_, runOps_false, ?_, ?_⟩
  · intro e op w s h
    rcases runOp_latch e op w s with h1 | ⟨h1, _⟩
    · rw [← h1]; exact h
    · rw [h1] at h; exact absurd h (by simp)
  · intro e op w s hne
    rcases runOp_latch e op w s with h1 | h1
    · exact absurd h1 hne
    · exact h1
  · intro w s h; simp [has_xshm, h]
  · intro w cw h; simp [has_xshm, h]

/-- C2 witness: after the latch is down, an arbitrary operation sequence
keeps it down, and a session constructed with `use_xshm = true` still
reports `has_xshm() = false`. -/
theorem c2_xshm_latch_one_way_witness :
    (runOps [(env0, Op.getXshmOp)] wFalse (init 1 true)).1.XShmEnabled = false ∧
    has_xshm wFalse (init 1 true) = false ∧
    wFalse.XShmEnabled = false :=
  ⟨c2_xshm_latch_one_way.2.2.2.2.1 [(env0, Op.getXshmOp)] wFalse (init 1 true) rfl,
   c2_xshm_latch_one_way.2.2.2.2.2.2 wFalse 1 rfl,
   rfl⟩

/-! ### C4: acknowledge_changes and the snapshot cache -/

/-- C4 counterexample: a session created and queried but never `setup()`
(damage handle absent, a reachable state) keeps its cached pixmap snapshot
across `acknowledge_changes()`: the next `get_contents_handle()` returns
the very handle cached before the acknowledgement, with no fresh fetch. -/
theorem c4_counterexample :
    (acknowledge_changes (get_contents_handle w0 (init 1 true)).world
        (get_contents_handle w0 (init 1 true)).handler).handler._contents_handle =
      some { ident := 0, width := 800, height := 600 } ∧
    (get_contents_handle w0 (init 1 true)).ret =
      some { ident := 0, width := 800, height := 600 } ∧
    (get_contents_handle
        (acknowledge_changes (get_contents_handle w0 (init 1 true)).world
          (get_contents_handle w0 (init 1 true)).handler).world
        (acknowledge_changes (get_contents_handle w0 (init 1 true)).world
          (get_contents_handle w0 (init 1 true)).handler).handler).ret =
      some { ident := 0, width := 800, height := 600 } ∧
    (get_contents_handle
        (acknowledge_changes (get_contents_handle w0 (init 1 true)).world
          (get_contents_handle w0 (init 1 true)).handler).world
        (acknowledge_changes (get_contents_handle w0 (init 1 true)).world
          (get_contents_handle w0 (init 1 true)).handler).handler).calls = [] := by
  decide

/-- C4 (amended): for every session whose damage handle is truthy and
whose window reference is live, `acknowledge_changes()` invalidates the
cached pixmap snapshot, so the next `get_contents_handle()` performs a
fresh fetch and never returns a handle cached before the acknowledgement
(cached handles carry idents below the mint counter). -/
theorem c4_ack_invalidates_amended (w : World) (s : WindowDamageHandler)
    (hdh : truthyNat s._damage_handle = true)
    (hcw : s.client_window.isSome = true)
    (hinv : ∀ ch, s._contents_handle = some ch → ch.ident < w.fresh) :
    (acknowledge_changes w s).handler._contents_handle = none ∧
    (acknowledge_changes w s).world = w ∧
    (∀ ch, (get_contents_handle (acknowledge_changes w s).world
              (acknowledge_changes w s).handler).ret = some ch →
       XCall.setPixmap ∈ (get_contents_handle (acknowledge_changes w s).world
              (acknowledge_changes w s).handler).calls ∧
       ch.ident = w.fresh ∧ s._contents_handle ≠ some ch) := by
  have hw' : (acknowledge_changes w s).world = w := acknowledge_world w s
  have hh : (acknowledge_changes w s).handler = { s with _contents_handle := none } := by
    unfold acknowledge_changes
    dsimp only
    rw [if_pos (by simp [hdh, hcw])]
    exact invalidate_pixmap_handler w s
  refine ⟨by rw [hh], hw', ?_⟩
  rw [hw', hh]
  obtain ⟨cv, hcv⟩ := Option.isSome_iff_exists.mp hcw
  intro ch hch
  rcases hpw : w.env.pixmapWrapper with _ | sz
  · simp [get_contents_handle, hcv, hpw] at hch
  · simp only [get_contents_handle, hcv, hpw] at hch ⊢
    simp at hch
    refine ⟨by simp, ?_, ?_⟩
    · rw [← hch]
    · intro hcontra
      have := hinv ch hcontra
      rw [← hch] at this
      exact absurd this (by simp)

/-- Session and process state used by the C4 witness: damage handle `7`,
live window, a cached snapshot of ident `0`, mint counter `1`. -/
def s4 : WindowDamageHandler :=
  { init 1 true with
    _damage_handle := some 7
    _contents_handle := some { ident := 0, width := 800, height := 600 } }

/-- Process state for the C4 witness. -/
def w4 : World := { env := env0, XShmEnabled := true, fresh := 1 }

/-- C4 witness: the amended theorem at a concrete session with an active
damage handle. -/
theorem c4_ack_invalidates_amended_witness :
    (acknowledge_changes w4 s4).handler._contents_handle = none ∧
    XCall.setPixmap ∈ (get_contents_handle (acknowledge_changes w4 s4).world
        (acknowledge_changes w4 s4).handler).calls ∧
    s4._contents_handle ≠ some { ident := 1, width := 800, height := 600 } := by
  have h := c4_ack_invalidates_amended w4 s4 (by decide) (by decide)
    (by intro ch hch
        have : ch = { ident := 0, width := 800, height := 600 } := by
          simpa [s4, init] using hch.symm
        rw [this]; decide)
  have h3 := h.2.2 { ident := 1, width := 800, height := 600 } (by decide)
  exact ⟨h.1, h3.1, h3.2.2⟩

/-! ### C5: stale-size discard in get_xshm_handle -/

/-- Environment for the C5 counterexample: geometry 400×300, but a wrapper
reporting 800×600, and a negotiation answering `retry_window = false`. -/
def env5 : X11Env :=
  { env0 with windowGeometry := (400, 300), shmSetup := (true, false, false) }

/-- C5 counterexample: after a negotiation that cleared the session-local
`_use_xshm` flag, a cached handle whose recorded 800×600 size differs from
the current 400×300 geometry is NOT discarded by the next
`get_xshm_handle()`: the call returns null at the `has_xshm()` gate,
performs no cleanup, and leaves the stale handle cached. -/
theorem c5_counterexample :
    (get_xshm_handle (initialWorld env5) (init 1 true)).handler._xshm_handle =
      some { ident := 0, width := 800, height := 600 } ∧
    env5.windowGeometry = (400, 300) ∧
    (get_xshm_handle (get_xshm_handle (initialWorld env5) (init 1 true)).world
        (get_xshm_handle (initialWorld env5) (init 1 true)).handler).ret = none ∧
    (get_xshm_handle (get_xshm_handle (initialWorld env5) (init 1 true)).world
        (get_xshm_handle (initialWorld env5) (init 1 true)).handler).handler._xshm_handle =
      some { ident := 0, width := 800, height := 600 } ∧
    (get_xshm_handle (get_xshm_handle (initialWorld env5) (init 1 true)).world
        (get_xshm_handle (initialWorld env5) (init 1 true)).handler).calls = [] := by
  decide

/-- C5 (amended): whenever `get_xshm_handle()` is called while the fast
path is reported usable (`has_xshm()` true) and a cached handle's recorded
size differs from the window's current geometry, the stale handle is
released and cleared before anything else is attempted, and the call
returns either a freshly negotiated handle or null; with `has_xshm()` true
a cached handle matching the current geometry is returned unchanged. -/
theorem c5_stale_discarded_amended (w : World) (s : WindowDamageHandler)
    (sh : XShmHandle) (hav : has_xshm w s = true)
    (hsh : s._xshm_handle = some sh) :
    ((sh.width, sh.height) ≠ w.env.windowGeometry →
       (get_xshm_handle w s).calls.take 2 =
         [XCall.geometryQuery, XCall.shmCleanup sh.ident] ∧
       (get_xshm_handle w s).handler._xshm_handle = (get_xshm_handle w s).ret ∧
       ((get_xshm_handle w s).ret = none ∨
        ∃ nw nh, w.env.getXShmWrapper = some (nw, nh) ∧
          (get_xshm_handle w s).ret =
            some { ident := w.fresh, width := nw, height := nh })) ∧
    ((sh.width, sh.height) = w.env.windowGeometry →
       get_xshm_handle w s =
         { ret := some sh, world := w, handler := s,
           calls := [XCall.geometryQuery] }) := by
  constructor
  · intro hne
    have hb : (sh.width != w.env.windowGeometry.1 ||
               sh.height != w.env.windowGeometry.2) = true := by
      rcases hg : w.env.windowGeometry with ⟨gw, gh⟩
      simp only [bne_iff_ne, Bool.or_eq_true]
      by_contra hcon
      push_neg at hcon
      exact hne (by rw [hg, hcon.1, hcon.2])
    rcases halloc : w.env.getXShmWrapper with _ | sz
    · simp [get_xshm_handle, hav, hsh, hb, halloc]
    · cases hio : w.env.shmSetup.1 <;> cases hrw : w.env.shmSetup.2.1 <;>
        cases hfl : w.env.shmSetup.2.2 <;>
        simp [get_xshm_handle, hav, hsh, hb, halloc, hio, hrw, hfl]
  · intro heq
    have hb : (sh.width != w.env.windowGeometry.1 ||
               sh.height != w.env.windowGeometry.2) = false := by
      rcases hg : w.env.windowGeometry with ⟨gw, gh⟩
      rw [hg] at heq
      simp only [Prod.mk.injEq] at heq
      simp [heq.1, heq.2]
    simp [get_xshm_handle, hav, hsh, hb]

/-- Session with a cached 100×100 handle, used by the C5 witness against
`env0`'s 800×600 geometry. -/
def s5m : WindowDamageHandler :=
  { init 1 true with _xshm_handle := some { ident := 5, width := 100, height := 100 } }

/-- Session with a cached handle matching `env0`'s 800×600 geometry. -/
def s5e : WindowDamageHandler :=
  { init 1 true with _xshm_handle := some { ident := 5, width := 800, height := 600 } }

/-- C5 witness: the amended theorem at a mismatched and at a matching
cached handle. -/
theorem c5_stale_discarded_amended_witness :
    ((get_xshm_handle w0 s5m).calls.take 2 =
       [XCall.geometryQuery, XCall.shmCleanup 5] ∧
     (get_xshm_handle w0 s5m).handler._xshm_handle = (get_xshm_handle w0 s5m).ret ∧
     ((get_xshm_handle w0 s5m).ret = none ∨
      ∃ nw nh, w0.env.getXShmWrapper = some (nw, nh) ∧
        (get_xshm_handle w0 s5m).ret =
          some { ident := w0.fresh, width := nw, height := nh })) ∧
    get_xshm_handle w0 s5e =
      { ret := some { ident := 5, width := 800, height := 600 }, world := w0,
        handler := s5e, calls := [XCall.geometryQuery] } :=
  ⟨(c5_stale_discarded_amended w0 s5m { ident := 5, width := 100, height := 100 }
      (by decide) rfl).1 (by decide),
   (c5_stale_discarded_amended w0 s5e { ident := 5, width := 800, height := 600 }
      (by decide) rfl).2 (by decide)⟩

/-! ### C6: negotiation outcome handling -/

/-- C6: in `get_xshm_handle()`, when a new handle must be negotiated:
a null allocation returns null without changing any state (the whole
`Step` equals the input with only the allocation call traced); otherwise
the probe's three signals act independently: `init_ok = false` discards
the handle (null returned), `retry_window = false` clears the
session-local `_use_xshm` flag only, and `xshm_failed = true` drops the
process-wide latch and emits the process warning. -/
theorem c6_negotiation_outcomes (w : World) (s : WindowDamageHandler)
    (hav : has_xshm w s = true) (hnone : s._xshm_handle = none) :
    (w.env.getXShmWrapper = none →
       get_xshm_handle w s =
         { ret := none, world := w, handler := s, calls := [XCall.shmAlloc] }) ∧
    (∀ sw sh, w.env.getXShmWrapper = some (sw, sh) →
       (get_xshm_handle w s).ret =
         (if w.env.shmSetup.1 then
            some { ident := w.fresh, width := sw, height := sh } else none) ∧
       (get_xshm_handle w s).handler._xshm_handle = (get_xshm_handle w s).ret ∧
       (get_xshm_handle w s).handler._use_xshm =
         (if w.env.shmSetup.2.1 then s._use_xshm else false) ∧
       (get_xshm_handle w s).world.XShmEnabled =
         (if w.env.shmSetup.2.2 then false else w.XShmEnabled) ∧
       (w.env.shmSetup.2.2 = true →
          XCall.warnShmDisabled ∈ (get_xshm_handle w s).calls)) := by
  constructor
  · intro halloc
    simp [get_xshm_handle, hav, hnone, halloc]
  · intro sw sh halloc
    cases hio : w.env.shmSetup.1 <;> cases hrw : w.env.shmSetup.2.1 <;>
      cases hfl : w.env.shmSetup.2.2 <;>
      simp [get_xshm_handle, hav, hnone, halloc, hio, hrw, hfl]

/-- Environment whose fast-path allocation fails. -/
def envNoAlloc : X11Env := { env0 with getXShmWrapper := none }

/-- C6 witness: allocation failure leaves everything unchanged; a
successful probe under `env0` installs the fresh handle. -/
theorem c6_negotiation_outcomes_witness :
    get_xshm_handle (initialWorld envNoAlloc) (init 1 true) =
      { ret := none, world := initialWorld envNoAlloc, handler := init 1 true,
        calls := [XCall.shmAlloc] } ∧
    (get_xshm_handle w0 (init 1 true)).ret =
      some { ident := 0, width := 800, height := 600 } := by
  constructor
  · exact (c6_negotiation_outcomes (initialWorld envNoAlloc) (init 1 true)
      (by decide) rfl).1 rfl
  · have h := ((c6_negotiation_outcomes w0 (init 1 true)
      (by decide) rfl).2 800 600 rfl).1
    simpa using h

/-! ### C7: setup -/

lemma invalidate_pixmap_calls (w : World) (s : WindowDamageHandler) :
    (invalidate_pixmap w s).calls = [] ∨
    ∃ i, (invalidate_pixmap w s).calls = [XCall.pixCleanup i] := by
  rcases hch : s._contents_handle with _ | ch
  · left; simp [invalidate_pixmap, hch]
  · right; exact ⟨ch.ident, by simp [invalidate_pixmap, hch]⟩

/-- C7: `setup()` on a window whose geometry query returns null raises
`Unmanageable`, creating no damage handle and registering no event
subscription; on success it records the border width, stores the damage
handle and subscribes to events. -/
theorem c7_setup_geometry (w : World) (s : WindowDamageHandler) :
    (w.env.geometryWithBorder = none →
       (setup w s).ret = Except.error { msg := "window disappeared already" } ∧
       (setup w s).handler._damage_handle = s._damage_handle ∧
       XCall.damageCreate ∉ (setup w s).calls ∧
       XCall.addReceiver ∉ (setup w s).calls) ∧
    (∀ gx gy gw gh bw,
       w.env.geometryWithBorder = some (gx, gy, gw, gh, bw) →
       (setup w s).ret = Except.ok () ∧
       (setup w s).handler._border_width = bw ∧
       (setup w s).handler._damage_handle = some w.env.xdamageCreate ∧
       XCall.addReceiver ∈ (setup w s).calls) := by
  constructor
  · intro hgeom
    rcases invalidate_pixmap_calls w s with hc | ⟨i, hc⟩ <;>
      simp [setup, invalidate_pixmap_world, invalidate_pixmap_handler, hgeom, hc]
  · intro gx gy gw gh bw hgeom
    rcases invalidate_pixmap_calls w s with hc | ⟨i, hc⟩ <;>
      simp [setup, create_damage_handle, invalidate_pixmap_world,
            invalidate_pixmap_handler, hgeom, hc]

/-- Environment whose geometry query returns null (window already gone). -/
def envNoGeom : X11Env := { env0 with geometryWithBorder := none }

/-- C7 witness: the theorem at the vanished-window environment and at
`env0` (border width 2, damage handle 7). -/
theorem c7_setup_geometry_witness :
    (setup (initialWorld envNoGeom) (init 1 true)).ret =
      Except.error { msg := "window disappeared already" } ∧
    (setup (initialWorld envNoGeom) (init 1 true)).handler._damage_handle = none ∧
    (setup w0 (init 1 true)).ret = Except.ok () ∧
    (setup w0 (init 1 true)).handler._border_width = 2 ∧
    (setup w0 (init 1 true)).handler._damage_handle = some 7 := by
  have h1 := (c7_setup_geometry (initialWorld envNoGeom) (init 1 true)).1 rfl
  have h2 := (c7_setup_geometry w0 (init 1 true)).2 0 0 800 600 2 rfl
  exact ⟨h1.1, h1.2.1, h2.1, h2.2.1, h2.2.2.1⟩

/-! ### C1/C3 helpers: which calls each phase can issue -/

lemma get_contents_no_pix (w : World) (s : WindowDamageHandler)
    (xq yq : Int) (wq hq : Nat) :
    XCall.pixGetImage xq yq wq hq ∉ (get_contents_handle w s).calls := by
  unfold get_contents_handle
  repeat' split
  all_goals simp

lemma get_xshm_no_pix (w : World) (s : WindowDamageHandler)
    (xq yq : Int) (wq hq : Nat) :
    XCall.pixGetImage xq yq wq hq ∉ (get_xshm_handle w s).calls := by
  unfold get_xshm_handle
  dsimp only
  repeat' split
  all_goals simp

lemma get_xshm_env (w : World) (s : WindowDamageHandler) :
    (get_xshm_handle w s).world.env = w.env := by
  rcases get_xshm_world w s with h | ⟨h, _⟩ | ⟨h, _⟩ <;> rw [h]

lemma get_image_fast_env (w : World) (s : WindowDamageHandler)
    (handle : PixmapHandle) (x y : Int) (width height : Nat) :
    (get_image_fast w s handle x y width height).world.env = w.env := by
  rw [get_image_fast_world, get_xshm_env]

lemma get_image_fast_no_pix (w : World) (s : WindowDamageHandler)
    (handle : PixmapHandle) (x y : Int) (width height : Nat)
    (xq yq : Int) (wq hq : Nat) :
    XCall.pixGetImage xq yq wq hq ∉
      (get_image_fast w s handle x y width height).calls := by
  unfold get_image_fast
  dsimp only
  repeat' split
  all_goals simp [get_xshm_no_pix]

lemma get_image_slow_spec (env : X11Env) (handle : PixmapHandle)
    (x y : Int) (width height : Nat) :
    (∀ (xq yq : Int) (wq hq : Nat),
       XCall.pixGetImage xq yq wq hq ∈ (get_image_slow env handle x y width height).2 →
       xq = x ∧ yq = y ∧ wq = min handle.width width ∧ hq = min handle.height height) ∧
    (∀ img, (get_image_slow env handle x y width height).1 = some img →
       env.pixGetImage x y (min handle.width width) (min handle.height height) =
         Except.ok img) := by
  unfold get_image_slow
  dsimp only
  constructor
  · intro xq yq wq hq hc
    repeat' split at hc
    all_goals simp_all
  · intro img himg
    repeat' split at himg
    all_goals simp_all

/-- C1: every read `get_image` issues on the slow path is clamped to the
backing-store handle's own reported dimensions; consequently, when the
environment honours the X contract (a successful pixmap read returns an
image of exactly the requested size), an image returned via the slow path
is never larger than the requested rectangle and never larger than the
backing store's actual extent. -/
theorem c1_slow_path_clamped (w : World) (s : WindowDamageHandler)
    (x y : Int) (width height : Nat) (handle : PixmapHandle)
    (hgood : ∀ (xq yq : Int) (wq hq : Nat) img,
       w.env.pixGetImage xq yq wq hq = Except.ok img →
       img.width = wq ∧ img.height = hq)
    (hhandle : (get_contents_handle w s).ret = some handle) :
    (∀ (xq yq : Int) (wq hq : Nat),
       XCall.pixGetImage xq yq wq hq ∈ (get_image w s x y width height).calls →
       wq = min handle.width width ∧ hq = min handle.height height) ∧
    (∀ img,
       (∃ (xq yq : Int) (wq hq : Nat),
          XCall.pixGetImage xq yq wq hq ∈ (get_image w s x y width height).calls) →
       (get_image w s x y width height).ret = Except.ok (some img) →
       img.width ≤ width ∧ img.height ≤ height ∧
       img.width ≤ handle.width ∧ img.height ≤ handle.height) := by
  have henv : (get_image_fast (get_contents_handle w s).world
      (get_contents_handle w s).handler handle x y width height).world.env = w.env := by
    rw [get_image_fast_env, get_contents_env]
  unfold get_image
  dsimp only
  simp only [hhandle]
  split
  · -- fast path returned an image: no slow-path read was issued
    constructor
    · intro xq yq wq hq hc
      dsimp only at hc
      rw [List.mem_append] at hc
      rcases hc with hc | hc
      · exact absurd hc (get_contents_no_pix w s xq yq wq hq)
      · exact absurd hc (get_image_fast_no_pix _ _ handle x y width height xq yq wq hq)
    · rintro img ⟨xq, yq, wq, hq, hc⟩ hret
      dsimp only at hc
      rw [List.mem_append] at hc
      rcases hc with hc | hc
      · exact absurd hc (get_contents_no_pix w s xq yq wq hq)
      · exact absurd hc (get_image_fast_no_pix _ _ handle x y width height xq yq wq hq)
  · -- fast path yielded no image: fell through to the clamped slow read
    constructor
    · intro xq yq wq hq hc
      dsimp only at hc
      rw [List.append_assoc, List.mem_append] at hc
      rcases hc with hc | hc
      · exact absurd hc (get_contents_no_pix w s xq yq wq hq)
      rw [List.mem_append] at hc
      rcases hc with hc | hc
      · exact absurd hc (get_image_fast_no_pix _ _ handle x y width height xq yq wq hq)
      · have := ((get_image_slow_spec _ handle x y width height).1 xq yq wq hq hc)
        exact ⟨this.2.2.1, this.2.2.2⟩
    · intro img hex hret
      dsimp only at hret
      have hok : (get_image_slow (get_image_fast (get_contents_handle w s).world
          (get_contents_handle w s).handler handle x y width height).world.env
          handle x y width height).1 = some img := by
        exact Except.ok.inj hret
      have := (get_image_slow_spec _ handle x y width height).2 img hok
      rw [henv] at this
      have hdim := hgood x y (min handle.width width) (min handle.height height) img this
      exact ⟨hdim.1 ▸ min_le_right _ _, hdim.2 ▸ min_le_right _ _,
             hdim.1 ▸ min_le_left _ _, hdim.2 ▸ min_le_left _ _⟩
  · -- fast path raised: absorbed, fell through to the clamped slow read
    constructor
    · intro xq yq wq hq hc
      dsimp only at hc
      rw [List.append_assoc, List.append_assoc, List.mem_append] at hc
      rcases hc with hc | hc
      · exact absurd hc (get_contents_no_pix w s xq yq wq hq)
      rw [List.mem_append] at hc
      rcases hc with hc | hc
      · exact absurd hc (get_image_fast_no_pix _ _ handle x y width height xq yq wq hq)
      rw [List.mem_append] at hc
      rcases hc with hc | hc
      · split at hc <;> simp_all
      · have := ((get_image_slow_spec _ handle x y width height).1 xq yq wq hq hc)
        exact ⟨this.2.2.1, this.2.2.2⟩
    · intro img hex hret
      dsimp only at hret
      have hok : (get_image_slow (get_image_fast (get_contents_handle w s).world
          (get_contents_handle w s).handler handle x y width height).world.env
          handle x y width height).1 = some img := by
        exact Except.ok.inj hret
      have := (get_image_slow_spec _ handle x y width height).2 img hok
      rw [henv] at this
      have hdim := hgood x y (min handle.width width) (min handle.height height) img this
      exact ⟨hdim.1 ▸ min_le_right _ _, hdim.2 ▸ min_le_right _ _,
             hdim.1 ▸ min_le_left _ _, hdim.2 ▸ min_le_left _ _⟩

/-- Environment for the C1 witness: no XShm extension (so calls reach the
slow path), 800×600 backing store, pixmap reads of exactly the requested
size. -/
def env1 : X11Env := { env0 with hasXShm := false }

/-- C1 witness: requesting 1000×1000 of an 800×600 backing store issues a
clamped 800×600 read and returns an image no larger than both bounds. -/
theorem c1_slow_path_clamped_witness :
    XCall.pixGetImage 0 0 800 600 ∈
      (get_image (initialWorld env1) (init 1 true) 0 0 1000 1000).calls ∧
    (get_image (initialWorld env1) (init 1 true) 0 0 1000 1000).ret =
      Except.ok (some { width := 800, height := 600 }) ∧
    (800 ≤ 1000 ∧ 600 ≤ 1000 ∧ 800 ≤ 800 ∧ 600 ≤ 600) := by
  have h := (c1_slow_path_clamped (initialWorld env1) (init 1 true) 0 0 1000 1000
      { ident := 0, width := 800, height := 600 }
      (by intro xq yq wq hq img himg
          simp [initialWorld, env1, env0] at himg
          subst himg
          exact ⟨rfl, rfl⟩)
      rfl).2 { width := 800, height := 600 }
      ⟨0, 0, 800, 600, by decide⟩ rfl
  exact ⟨by decide, rfl, h⟩

/-- C3: a recoverable vanished-window error (BadMatch/BadWindow) during
the fast path is absorbed inside `get_image` — logged at debug, never
surfaced — and execution falls through to the slow path; an XError never
escapes `get_image` at all; and a slow-path failure of the recoverable
class yields "no image" (None) with a debug log instead of raising. -/
theorem c3_recoverable_absorbed (w : World) (s : WindowDamageHandler)
    (x y : Int) (width height : Nat) :
    (∀ e, (get_image w s x y width height).ret ≠ Except.error e) ∧
    (∀ (handle : PixmapHandle) (e : XErr),
       (get_contents_handle w s).ret = some handle →
       (get_image_fast (get_contents_handle w s).world
          (get_contents_handle w s).handler handle x y width height).ret =
         Except.error e →
       recoverableFast e = true →
       XCall.logDebug ∈ (get_image w s x y width height).calls ∧
       (get_image w s x y width height).ret =
         Except.ok (get_image_slow
           (get_image_fast (get_contents_handle w s).world
              (get_contents_handle w s).handler handle x y width height).world.env
           handle x y width height).1) ∧
    (∀ (env : X11Env) (handle : PixmapHandle) (xq yq : Int) (wq hq : Nat)
       (e : XErr),
       env.pixGetImage xq yq (min handle.width wq) (min handle.height hq) =
         Except.error e →
       startswith e.msg badMatchStr = true →
       (get_image_slow env handle xq yq wq hq).1 = none ∧
       XCall.logDebug ∈ (get_image_slow env handle xq yq wq hq).2) := by
  refine ⟨?_, ?_, ?_⟩
  · intro e
    unfold get_image
    dsimp only
    split
    · simp
    · split <;> simp
  · intro handle e hhandle hfast hrec
    unfold get_image
    dsimp only
    simp only [hhandle]
    simp only [hfast]
    simp only [hrec]
    constructor
    · simp
    · trivial
  · intro env handle xq yq wq hq e hpix hmsg
    unfold get_image_slow
    dsimp only
    simp [hpix, hmsg]

/-- Environment for the C3 witness: the fast path raises BadMatch and the
slow path raises BadMatch as well. -/
def env3 : X11Env :=
  { env0 with
    shmGetImage := fun _ _ _ _ _ => Except.error { msg := "BadMatch" }
    pixGetImage := fun _ _ _ _ => Except.error { msg := "BadMatch" } }

/-- C3 witness: with BadMatch on both paths, `get_image` logs at debug,
falls through, and returns "no image" without an error escaping. -/
theorem c3_recoverable_absorbed_witness :
    (get_image (initialWorld env3) (init 1 true) 0 0 5 5).ret ≠
      Except.error { msg := "BadMatch" } ∧
    XCall.logDebug ∈ (get_image (initialWorld env3) (init 1 true) 0 0 5 5).calls ∧
    (get_image_slow env3 { ident := 0, width := 800, height := 600 } 0 0 5 5).1 =
      none := by
  have h := c3_recoverable_absorbed (initialWorld env3) (init 1 true) 0 0 5 5
  refine ⟨h.1 { msg := "BadMatch" }, ?_, ?_⟩
  · exact (h.2.1 { ident := 0, width := 800, height := 600 } { msg := "BadMatch" }
      rfl rfl (by decide)).1
  · exact (h.2.2 env3 { ident := 0, width := 800, height := 600 } 0 0 5 5
      { msg := "BadMatch" } rfl (by decide)).1

end XpraDamage
